import Mathlib

/-!
Verification development for the Sovereigns Edict comment-analysis pipeline
(backend/mining/extractor.py, backend/fusion/engine.py, backend/citation/oracle.py,
backend/amendment/generator.py).

The Python code is shallowly embedded: strings are Lean `String`s and the Python
string primitives used by the code (`in`, `str.count`, `str.lower`, `str.split`,
`str.strip`, the two regex substitutions of `preprocess_text`) are modelled over
`List Char` with structural recursion so that every definition evaluates inside
the kernel.  Python floats are modelled as rationals `ℚ`.  Python dicts are
modelled as association lists in insertion order with last-write-wins lookup
(`dictGet`); `defaultdict` grouping is modelled by iterating over the keys in
first-occurrence order (`firstSeen`), which is exactly the insertion order of
the corresponding Python dict.  `uuid.uuid4()` identifiers, which no claim
depends on, are modelled as deterministic per-index fresh ids.
-/

namespace SovEdict

/-! ### Python string primitives -/

/-- Python `needle in haystack` on character lists: some tail of the haystack
starts with the needle. -/
def containsCh (needle haystack : List Char) : Bool :=
  haystack.tails.any (fun t => needle.isPrefixOf t)

/-- Fuel-indexed scan for Python `str.count`: counts non-overlapping
occurrences left to right, skipping past each match.  The fuel (initially the
haystack length) only makes the recursion structural. -/
def countChAux (needle : List Char) : Nat → List Char → Nat
  | 0, _ => 0
  | _ + 1, [] => 0
  | fuel + 1, c :: rest =>
    if needle.isPrefixOf (c :: rest) then
      1 + countChAux needle fuel ((c :: rest).drop needle.length)
    else
      countChAux needle fuel rest

/-- Python `haystack.count(needle)` for a non-empty needle (the code only ever
counts fixed non-empty keywords). -/
def countCh (needle haystack : List Char) : Nat :=
  if needle = [] then 0 else countChAux needle haystack.length haystack

/-- Python `needle in haystack` on strings. -/
def pyIn (needle haystack : String) : Bool := containsCh needle.data haystack.data

/-- Python `haystack.count(needle)` on strings. -/
def pyCount (haystack needle : String) : Nat := countCh needle.data haystack.data

/-- Python `str.lower`, modelled characterwise (ASCII, which covers every
string the code compares against). -/
def pyLower (s : String) : String := String.mk (s.data.map Char.toLower)

/-- Accumulator pass for Python `str.split()` (split on whitespace runs,
dropping empty fields).  `acc` holds the current word reversed. -/
def splitWsAux (acc : List Char) : List Char → List String
  | [] => if acc.isEmpty then [] else [String.mk acc.reverse]
  | c :: cs =>
    if c.isWhitespace then
      if acc.isEmpty then splitWsAux [] cs
      else String.mk acc.reverse :: splitWsAux [] cs
    else splitWsAux (c :: acc) cs

/-- Python `s.split()`: whitespace-separated words of `s`. -/
def pySplit (s : String) : List String := splitWsAux [] s.data

/-- One pass of `re.sub(r"\s+", " ", ·)`: every maximal whitespace run becomes
a single space.  `prevWs` records whether the previous character was part of a
whitespace run already emitted. -/
def collapseWsAux (prevWs : Bool) : List Char → List Char
  | [] => []
  | c :: cs =>
    if c.isWhitespace then
      if prevWs then collapseWsAux true cs else ' ' :: collapseWsAux true cs
    else c :: collapseWsAux false cs

/-- Python `str.strip()`. -/
def stripWs (l : List Char) : List Char :=
  ((l.dropWhile Char.isWhitespace).reverse.dropWhile Char.isWhitespace).reverse

/-- Characters kept by `re.sub(r"[^\w\s.,;:!?()-]", "", ·)` (ASCII `\w`). -/
def allowedChar (c : Char) : Bool :=
  c.isAlphanum || c == '_' || c.isWhitespace ||
    c == '.' || c == ',' || c == ';' || c == ':' || c == '!' || c == '?' ||
    c == '(' || c == ')' || c == '-'

/-! ### Data model (backend/models) -/

/-- `ArgumentType` from models/argument.py. -/
inductive ArgumentType
  | SUPPORT
  | OBJECTION
  | NEUTRAL
deriving DecidableEq

/-- `Argument` from models/argument.py (the fields the pipeline reads; the
`citations` and `related_arguments` id lists default to `[]` exactly as in the
pydantic model and are never read by the functions under study). -/
structure Argument where
  id : String
  comment_id : String
  text : String
  type : ArgumentType
  themes : List String
  clause : String
  confidence : ℚ
deriving DecidableEq

/-- `Comment` from models/comment.py (`source`, `timestamp` and `metadata` are
never read by the extraction pipeline; `source` is kept, the other two are
omitted from the embedding). -/
structure Comment where
  id : String
  text : String
  source : String
  policy_clause : String
deriving DecidableEq

/-- `CitationType` from models/citation.py. -/
inductive CitationType
  | LEGAL
  | ACADEMIC
  | EXPERT
deriving DecidableEq

/-- `Citation` from models/citation.py. -/
structure Citation where
  id : String
  title : String
  source : String
  type : CitationType
  url : Option String
  summary : String
  relevance_score : ℚ
deriving DecidableEq

/-! ### Argument extractor (backend/mining/extractor.py) -/

/-- `preprocess_text`: lowercase, collapse whitespace runs to one space,
drop characters outside word/whitespace/listed punctuation, strip. -/
def preprocess_text (text : String) : String :=
  let lowered := text.data.map Char.toLower
  let collapsed := collapseWsAux false lowered
  let kept := collapsed.filter allowedChar
  String.mk (stripWs kept)

/-- The fixed support keyword table of `detect_argument_type` and
`calculate_confidence`. -/
def support_keywords : List String :=
  ["support", "agree", "good", "benefit", "positive", "favor"]

/-- The fixed objection keyword table of `detect_argument_type` and
`calculate_confidence`. -/
def objection_keywords : List String :=
  ["against", "disagree", "bad", "negative", "concern", "problem", "issue"]

/-- `sum(1 for keyword in keywords if keyword in text_lower)`: the number of
keywords of the table that occur in the text as substrings (each keyword
contributes at most 1). -/
def keywordsPresent (keywords : List String) (text_lower : String) : Nat :=
  (keywords.filter (fun k => pyIn k text_lower)).length

/-- `detect_argument_type` from extractor.py. -/
def detect_argument_type (text : String) : ArgumentType :=
  let text_lower := pyLower text
  let support_count := keywordsPresent support_keywords text_lower
  let objection_count := keywordsPresent objection_keywords text_lower
  if objection_count < support_count then ArgumentType.SUPPORT
  else if support_count < objection_count then ArgumentType.OBJECTION
  else ArgumentType.NEUTRAL

/-- The fixed theme keyword table of `extract_themes`, in the insertion order
of the source dict. -/
def theme_keywords : List (String × List String) :=
  [("privacy", ["privacy", "personal data", "surveillance", "monitoring"]),
   ("economic", ["cost", "expense", "money", "financial", "economy"]),
   ("legal", ["law", "legal", "constitution", "rights"]),
   ("technical", ["technology", "technical", "system", "software"]),
   ("implementation", ["implement", "process", "procedure", "execute"])]

/-- `extract_themes` from extractor.py: a theme is assigned when any of its
keyword phrases occurs as a substring; when no theme matches the result is the
singleton `general`. -/
def extract_themes (text : String) : List String :=
  let text_lower := pyLower text
  let themes :=
    (theme_keywords.filter (fun p => p.2.any (fun k => pyIn k text_lower))).map
      (fun p => p.1)
  if themes.isEmpty then ["general"] else themes

/-- `sum(text_lower.count(keyword) for keyword in keywords)`: total number of
substring occurrences (multiplicities included) of the table keywords. -/
def keywordOccurrences (keywords : List String) (text_lower : String) : Nat :=
  (keywords.map (fun k => pyCount text_lower k)).sum

/-- `calculate_confidence` from extractor.py, with the same sequential
updates as the source. -/
def calculate_confidence (text : String) (argument_type : ArgumentType)
    (themes : List String) : ℚ :=
  let confidence : ℚ := 1/2
  let confidence :=
    if argument_type ≠ ArgumentType.NEUTRAL then confidence + 1/5 else confidence
  let confidence := confidence + min ((themes.length : ℚ) * (1/10)) (3/10)
  let text_lower := pyLower text
  let support_count := keywordOccurrences support_keywords text_lower
  let objection_count := keywordOccurrences objection_keywords text_lower
  let keyword_density : ℚ :=
    ((support_count + objection_count : ℕ) : ℚ) /
      ((max (pySplit text_lower).length 1 : ℕ) : ℚ)
  let confidence := confidence + min (keyword_density * 2) (1/5)
  max 0 (min 1 confidence)

/-- `extract_arguments` from extractor.py: one `Argument` per `Comment`.
The `uuid.uuid4()` id is modelled as a deterministic per-index fresh id. -/
def extract_arguments (comments : List Comment) : List Argument :=
  comments.enum.map (fun p =>
    let processed_text := preprocess_text p.2.text
    { id := "arg-" ++ toString p.1
      comment_id := p.2.id
      text := processed_text
      type := detect_argument_type processed_text
      themes := extract_themes processed_text
      clause := p.2.policy_clause
      confidence :=
        calculate_confidence processed_text (detect_argument_type processed_text)
          (extract_themes processed_text) })

/-! ### Citation oracle (backend/citation/oracle.py) -/

/-- First entry of `SAMPLE_CITATIONS`. -/
def cit_001 : Citation :=
  { id := "cit_001"
    title := "Puttaswamy Judgment on Privacy Rights"
    source := "Supreme Court of India"
    type := CitationType.LEGAL
    url := some "https://example.com/puttaswamy-judgment"
    summary := "Landmark judgment establishing privacy as a fundamental right under the Indian Constitution."
    relevance_score := 98/100 }

/-- Second entry of `SAMPLE_CITATIONS`. -/
def cit_002 : Citation :=
  { id := "cit_002"
    title := "General Data Protection Regulation (GDPR)"
    source := "European Union"
    type := CitationType.LEGAL
    url := some "https://example.com/gdpr"
    summary := "Regulation on data protection and privacy in the European Union."
    relevance_score := 95/100 }

/-- Third entry of `SAMPLE_CITATIONS`. -/
def cit_003 : Citation :=
  { id := "cit_003"
    title := "Economic Impact of Data Privacy Laws"
    source := "Journal of Digital Economics"
    type := CitationType.ACADEMIC
    url := some "https://example.com/economic-impact"
    summary := "Study on the economic effects of implementing strict data privacy regulations."
    relevance_score := 85/100 }

/-- The static citation table of oracle.py, in source order. -/
def SAMPLE_CITATIONS : List Citation := [cit_001, cit_002, cit_003]

/-- `citation.title + " " + citation.summary` as built in `find_citations`. -/
def citationText (citation : Citation) : String :=
  citation.title ++ " " ++ citation.summary

/-- The set of whitespace-split tokens of the lowercased string
(`set(s.lower().split())` in the source). -/
def tokenSet (s : String) : Finset String := (pySplit (pyLower s)).toFinset

/-- `len(set(argument_text.split()) & set(citation_text.split()))` with both
sides lowercased, as computed by `find_citations`. -/
def sharedTokenCount (argument_text citation_text : String) : Nat :=
  (tokenSet argument_text ∩ tokenSet citation_text).card

/-- `find_citations` from oracle.py: keep, in table order, the citations whose
title-plus-summary shares strictly more than 2 tokens with the argument text. -/
def find_citations (argument : Argument) : List Citation :=
  SAMPLE_CITATIONS.filter (fun citation =>
    decide (2 < sharedTokenCount argument.text (citationText citation)))

/-- `validate_citation` from oracle.py. -/
def validate_citation (citation_id : String) : Bool :=
  SAMPLE_CITATIONS.any (fun citation => citation.id == citation_id)

/-! ### Fusion engine (backend/fusion/engine.py) -/

/-- Accumulator pass extracting the distinct elements of a list in first-seen
order: the key order of a Python dict or `defaultdict` filled by one loop. -/
def firstSeenAux (seen : List String) : List String → List String
  | [] => []
  | x :: xs =>
    if x ∈ seen then firstSeenAux seen xs else x :: firstSeenAux (x :: seen) xs

/-- Distinct elements of a list in first-occurrence order. -/
def firstSeen (l : List String) : List String := firstSeenAux [] l

/-- Lookup in an insertion-ordered association list with Python dict
semantics: the last write to a key wins. -/
def dictGet {α : Type} (d : List (String × α)) (k : String) : Option α :=
  (d.reverse.find? (fun p => decide (p.1 = k))).map Prod.snd

/-- The group of arguments sharing a given exact text, in list order
(`argument_texts[t]` after the grouping loops of engine.py). -/
def textGroup (arguments : List Argument) (t : String) : List Argument :=
  arguments.filter (fun a => decide (a.text = t))

/-- The group of arguments attached to a given clause, in list order. -/
def clauseGroup (arguments : List Argument) (c : String) : List Argument :=
  arguments.filter (fun a => decide (a.clause = c))

/-- `aggregate_arguments` from engine.py: clause → list of its arguments,
keys in first-occurrence order. -/
def aggregate_arguments (arguments : List Argument) : List (String × List Argument) :=
  (firstSeen (arguments.map (fun a => a.clause))).map
    (fun c => (c, clauseGroup arguments c))

/-- The weight `statistics.mean([arg.confidence ...]) * (1 + source_diversity * 0.1)`
computed for one text group in `calculate_argument_weights`. -/
def groupWeight (group : List Argument) : ℚ :=
  ((group.map (fun a => a.confidence)).sum / (group.length : ℚ)) *
    (1 + ((group.map (fun a => a.comment_id)).dedup.length : ℚ) * (1/10))

/-- `calculate_argument_weights` from engine.py: for every text group, assign
the group weight to the id of every argument of the group. -/
def calculate_argument_weights (arguments : List Argument) : List (String × ℚ) :=
  (firstSeen (arguments.map (fun a => a.text))).flatMap (fun t =>
    (textGroup arguments t).map
      (fun a => (a.id, groupWeight (textGroup arguments t))))

/-- `detect_echo_chambers` from engine.py: for every text produced by more
than 10 distinct comment ids, emit the ids of all arguments with that text. -/
def detect_echo_chambers (arguments : List Argument) : List String :=
  (firstSeen (arguments.map (fun a => a.text))).flatMap (fun t =>
    if 10 < ((textGroup arguments t).map (fun a => a.comment_id)).dedup.length then
      (textGroup arguments t).map (fun a => a.id)
    else [])

/-- `cross_validate_arguments` from engine.py: an argument is validated iff
its text group contains more than one argument. -/
def cross_validate_arguments (arguments : List Argument) : List (String × Bool) :=
  (firstSeen (arguments.map (fun a => a.text))).flatMap (fun t =>
    (textGroup arguments t).map
      (fun a => (a.id, decide (1 < (textGroup arguments t).length))))

/-! ### Amendment generator (backend/amendment/generator.py) -/

/-- An amendment suggestion dict as built by generator.py.  The
`uuid.uuid4()` id, on which nothing depends, is omitted from the embedding;
`citations` holds the cited `Citation` records (the source stores their dict
renderings). -/
structure AmendmentSuggestion where
  clause : String
  type : String
  summary : String
  details : String
  suggested_change : String
  citations : List Citation
  confidence : ℚ
deriving DecidableEq

/-- `sum(1 for arg in args if arg.type == ArgumentType.SUPPORT)`. -/
def supportCount (arguments : List Argument) : Nat :=
  (arguments.filter (fun a => decide (a.type = ArgumentType.SUPPORT))).length

/-- `sum(1 for arg in args if arg.type == ArgumentType.OBJECTION)`. -/
def objectionCount (arguments : List Argument) : Nat :=
  (arguments.filter (fun a => decide (a.type = ArgumentType.OBJECTION))).length

/-- The `theme_count` dict of `generate_objection_response`: themes of the
objection-typed arguments with their multiplicities, keys in
first-occurrence order. -/
def themeCounts (arguments : List Argument) : List (String × Nat) :=
  let objectionThemes :=
    (arguments.filter (fun a => decide (a.type = ArgumentType.OBJECTION))).flatMap
      (fun a => a.themes)
  (firstSeen objectionThemes).map
    (fun t => (t, (objectionThemes.filter (fun u => decide (u = t))).length))

/-- Stable insertion of one counted theme into a descending-count list:
the item moves left past strictly smaller counts only.  Together with
`sortByCountDesc` this reproduces Python `sorted(key=count, reverse=True)`,
which is a stable descending sort. -/
def insertByCountDesc (p : String × Nat) : List (String × Nat) → List (String × Nat)
  | [] => [p]
  | q :: qs => if q.2 ≤ p.2 then p :: q :: qs else q :: insertByCountDesc p qs

/-- Stable sort by count, descending (Python
`sorted(theme_count.items(), key=lambda x: x[1], reverse=True)`). -/
def sortByCountDesc : List (String × Nat) → List (String × Nat)
  | [] => []
  | p :: ps => insertByCountDesc p (sortByCountDesc ps)

/-- The duplicate-removal loop of `generate_objection_response`: keep the
first citation seen for every citation id (`seen` is the `seen_ids` set). -/
def dedupCitations (seen : List String) : List Citation → List Citation
  | [] => []
  | c :: cs =>
    if c.id ∈ seen then dedupCitations seen cs
    else c :: dedupCitations (c.id :: seen) cs

/-- `generate_objection_response` from generator.py. -/
def generate_objection_response (clause : String) (arguments : List Argument) :
    AmendmentSuggestion :=
  let top_themes := (sortByCountDesc (themeCounts arguments)).take 3
  let themeList := String.intercalate ", " (top_themes.map (fun p => p.1))
  let citations :=
    (arguments.filter (fun a => decide (a.type = ArgumentType.OBJECTION))).flatMap
      find_citations
  let unique_citations := dedupCitations [] citations
  { clause := clause
    type := "objection_response"
    summary := "Address concerns regarding " ++ themeList
    details := "This clause has received significant objection, primarily concerning "
      ++ themeList ++ ". Consider revising to address these concerns."
    suggested_change := "Revise clause " ++ clause ++ " to better address "
      ++ themeList ++ " concerns"
    citations := unique_citations.take 3
    confidence := 9/10 }

/-- `generate_support_acknowledgment` from generator.py. -/
def generate_support_acknowledgment (clause : String) (_arguments : List Argument) :
    AmendmentSuggestion :=
  { clause := clause
    type := "support_acknowledgment"
    summary := "Positive reception"
    details := "This clause has received strong support from commenters."
    suggested_change := "Retain this clause as currently worded"
    citations := []
    confidence := 8/10 }

/-- `generate_balanced_review` from generator.py. -/
def generate_balanced_review (clause : String) (_arguments : List Argument) :
    AmendmentSuggestion :=
  { clause := clause
    type := "balanced_review"
    summary := "Mixed feedback requires detailed review"
    details := "This clause has received both support and objection. A detailed review is recommended."
    suggested_change := "Conduct detailed review of clause " ++ clause
      ++ " considering all feedback"
    citations := []
    confidence := 7/10 }

/-- The per-clause branch of `suggest_amendments`. -/
def clauseSuggestion (arguments : List Argument) (clause : String) :
    AmendmentSuggestion :=
  let args := clauseGroup arguments clause
  if supportCount args < objectionCount args then
    generate_objection_response clause args
  else if objectionCount args < supportCount args then
    generate_support_acknowledgment clause args
  else
    generate_balanced_review clause args

/-- `suggest_amendments` from generator.py: group by clause in first-seen
order, then emit one suggestion per clause group. -/
def suggest_amendments (arguments : List Argument) : List AmendmentSuggestion :=
  (firstSeen (arguments.map (fun a => a.clause))).map (clauseSuggestion arguments)

/-! ### Concrete instances used by witnesses and counterexamples -/

/-- An argument whose text shares exactly 3 tokens with `cit_001`. -/
def argShare3 : Argument :=
  { id := "arg-s3", comment_id := "c-s3", text := "privacy rights under",
    type := ArgumentType.OBJECTION, themes := ["privacy"], clause := "S1",
    confidence := 1/2 }

/-- An argument whose text shares exactly 2 tokens with `cit_001` (and fewer
with the other table entries). -/
def argShare2 : Argument :=
  { id := "arg-s2", comment_id := "c-s2", text := "privacy rights",
    type := ArgumentType.OBJECTION, themes := ["privacy"], clause := "S1",
    confidence := 1/2 }

/-- 11 arguments with identical text from 11 distinct comment ids. -/
def echoArgs11 : List Argument :=
  (List.range 11).map (fun i =>
    { id := "a" ++ toString i, comment_id := "c" ++ toString i,
      text := "same text", type := ArgumentType.NEUTRAL, themes := [],
      clause := "cl", confidence := 1/2 })

/-- 10 arguments with identical text from 10 distinct comment ids. -/
def echoArgs10 : List Argument :=
  (List.range 10).map (fun i =>
    { id := "a" ++ toString i, comment_id := "c" ++ toString i,
      text := "same text", type := ArgumentType.NEUTRAL, themes := [],
      clause := "cl", confidence := 1/2 })

/-- Two same-text arguments from the same comment (`c1`). -/
def cvArg1 : Argument :=
  { id := "a1", comment_id := "c1", text := "dup", type := ArgumentType.NEUTRAL,
    themes := [], clause := "cl", confidence := 1/2 }

/-- Second same-text argument from the same comment as `cvArg1`. -/
def cvArg2 : Argument :=
  { id := "a2", comment_id := "c1", text := "dup", type := ArgumentType.NEUTRAL,
    themes := [], clause := "cl", confidence := 1/2 }

/-- Two same-text arguments from two distinct comments, confidences 1/2 and 1. -/
def wArg1 : Argument :=
  { id := "a1", comment_id := "c1", text := "t", type := ArgumentType.NEUTRAL,
    themes := [], clause := "cl", confidence := 1/2 }

/-- Companion of `wArg1` with confidence 1 from a second comment. -/
def wArg2 : Argument :=
  { id := "a2", comment_id := "c2", text := "t", type := ArgumentType.NEUTRAL,
    themes := [], clause := "cl", confidence := 1 }

/-- A supporting and an objecting argument on one clause (tie after ignoring
neither). -/
def tieArgS : Argument :=
  { id := "t1", comment_id := "c1", text := "i support this good benefit",
    type := ArgumentType.SUPPORT, themes := ["general"],
    clause := "Section 7(a)", confidence := 1 }

/-- The objecting half of the tie scenario. -/
def tieArgO : Argument :=
  { id := "t2", comment_id := "c2", text := "i am against this, serious problem",
    type := ArgumentType.OBJECTION, themes := ["general"],
    clause := "Section 7(a)", confidence := 1 }

/-- A lone objecting argument whose text matches `cit_001`. -/
def objArg : Argument :=
  { id := "o1", comment_id := "c1", text := "privacy rights under",
    type := ArgumentType.OBJECTION, themes := ["privacy"], clause := "c1",
    confidence := 9/10 }

/-- A comment with a keyword-free one-word text for the extractor witness. -/
def cmt0 : Comment :=
  { id := "c0", text := "x", source := "s", policy_clause := "cl" }

/-! ### Helper lemmas -/

theorem mem_firstSeenAux (a : String) (l : List String) :
    ∀ seen : List String, a ∈ firstSeenAux seen l ↔ a ∈ l ∧ a ∉ seen := by
  induction l with
  | nil => intro seen; simp [firstSeenAux]
  | cons x xs ih =>
    intro seen
    by_cases hx : x ∈ seen
    · rw [firstSeenAux, if_pos hx, ih]
      constructor
      · rintro ⟨h1, h2⟩; exact ⟨List.mem_cons_of_mem x h1, h2⟩
      · rintro ⟨h1, h2⟩
        rcases List.mem_cons.mp h1 with h | h
        · exact absurd (h ▸ hx) h2
        · exact ⟨h, h2⟩
    · rw [firstSeenAux, if_neg hx]
      simp only [List.mem_cons, ih, not_or]
      constructor
      · rintro (h | ⟨h1, h2, h3⟩)
        · exact ⟨Or.inl h, h ▸ hx⟩
        · exact ⟨Or.inr h1, h3⟩
      · rintro ⟨h1 | h1, h2⟩
        · exact Or.inl h1
        · by_cases hax : a = x
          · exact Or.inl hax
          · exact Or.inr ⟨h1, hax, h2⟩

theorem mem_firstSeen (a : String) (l : List String) : a ∈ firstSeen l ↔ a ∈ l := by
  rw [firstSeen, mem_firstSeenAux]; simp

theorem nodup_firstSeenAux (l : List String) :
    ∀ seen : List String, (firstSeenAux seen l).Nodup := by
  induction l with
  | nil => intro seen; simp [firstSeenAux]
  | cons x xs ih =>
    intro seen
    by_cases hx : x ∈ seen
    · rw [firstSeenAux, if_pos hx]; exact ih seen
    · rw [firstSeenAux, if_neg hx]
      refine List.nodup_cons.mpr ⟨fun hmem => ?_, ih (x :: seen)⟩
      rw [mem_firstSeenAux] at hmem
      exact hmem.2 (List.mem_cons_self x seen)

theorem nodup_firstSeen (l : List String) : (firstSeen l).Nodup :=
  nodup_firstSeenAux l []

theorem dictGet_eq_some {α : Type} (d : List (String × α)) (k : String) (v : α)
    (hmem : (k, v) ∈ d) (huniq : ∀ p ∈ d, p.1 = k → p.2 = v) :
    dictGet d k = some v := by
  have hex : ∃ p ∈ d.reverse, (fun p : String × α => decide (p.1 = k)) p = true :=
    ⟨(k, v), List.mem_reverse.mpr hmem, by simp⟩
  obtain ⟨p, hp⟩ : ∃ p, d.reverse.find? (fun p => decide (p.1 = k)) = some p :=
    Option.isSome_iff_exists.mp (List.find?_isSome.mpr hex)
  have hpd : p ∈ d := List.mem_reverse.mp (List.mem_of_find?_eq_some hp)
  have hpk : p.1 = k := by simpa using List.find?_some hp
  have hpv : p.2 = v := huniq p hpd hpk
  rw [dictGet, hp]
  simp [hpv]

theorem mem_groupMap_iff {β : Type} (arguments : List Argument)
    (f : List Argument → β) (k : String) (v : β) :
    (k, v) ∈ (firstSeen (arguments.map (fun a => a.text))).flatMap (fun t =>
        (textGroup arguments t).map (fun a => (a.id, f (textGroup arguments t)))) ↔
      ∃ a ∈ arguments, a.id = k ∧ v = f (textGroup arguments a.text) := by
  rw [List.mem_flatMap]
  constructor
  · rintro ⟨t, ht, hv⟩
    rw [List.mem_map] at hv
    obtain ⟨a, ha, heq⟩ := hv
    have ha' := List.mem_filter.mp ha
    have htext : a.text = t := by simpa using ha'.2
    refine ⟨a, ha'.1, ?_, ?_⟩
    · simpa using congrArg Prod.fst heq
    · have h2 := congrArg Prod.snd heq
      simp only at h2
      rw [htext]
      exact h2.symm
  · rintro ⟨a, ha, hk, hv⟩
    refine ⟨a.text, ?_, ?_⟩
    · rw [mem_firstSeen]; exact List.mem_map.mpr ⟨a, ha, rfl⟩
    · rw [List.mem_map]
      exact ⟨a, List.mem_filter.mpr ⟨ha, by simp⟩, by rw [hk, hv]⟩

theorem dictGet_groupMap {β : Type} (arguments : List Argument)
    (f : List Argument → β)
    (h : (arguments.map (fun a => a.id)).Nodup) (a : Argument) (ha : a ∈ arguments) :
    dictGet ((firstSeen (arguments.map (fun a => a.text))).flatMap (fun t =>
        (textGroup arguments t).map (fun b => (b.id, f (textGroup arguments t)))))
      a.id = some (f (textGroup arguments a.text)) := by
  apply dictGet_eq_some
  · exact (mem_groupMap_iff arguments f a.id _).mpr ⟨a, ha, rfl, rfl⟩
  · rintro ⟨k, v⟩ hp hk
    obtain ⟨b, hb, hbk, hbv⟩ := (mem_groupMap_iff arguments f k v).mp hp
    have hba : b = a := List.inj_on_of_nodup_map h hb ha (by rw [hbk]; exact hk)
    rw [hbv, hba]

/-- The stance classifier as claim C2 words it, for refinement comparison:
stances compared by total substring-occurrence counts of the keyword tables
(multiplicities included), where the source compares the number of distinct
keywords present. -/
def detect_argument_type_byOccurrences (text : String) : ArgumentType :=
  let text_lower := pyLower text
  let support_count := keywordOccurrences support_keywords text_lower
  let objection_count := keywordOccurrences objection_keywords text_lower
  if objection_count < support_count then ArgumentType.SUPPORT
  else if support_count < objection_count then ArgumentType.OBJECTION
  else ArgumentType.NEUTRAL

/-- The keyword-density term of the confidence formula as §4.1 words it:
total substring occurrences of support and objection keywords divided by
max(word count, 1), all computed on the lowercased text. -/
def keywordDensity (text : String) : ℚ :=
  ((keywordOccurrences support_keywords (pyLower text) +
      keywordOccurrences objection_keywords (pyLower text) : ℕ) : ℚ) /
    ((max (pySplit (pyLower text)).length 1 : ℕ) : ℚ)

/-- The argument the extractor produces from `cmt0`: neutral, fallback theme,
confidence 1/2 + 1/10 = 3/5. -/
def xArg : Argument :=
  { id := "arg-0", comment_id := "c0", text := "x",
    type := ArgumentType.NEUTRAL, themes := ["general"], clause := "cl",
    confidence := 3/5 }

/-! ### Claim theorems -/

/-- C9: on the empty argument list, each of the four fusion-engine operations
(aggregation by clause, weighting, echo-chamber detection, cross-validation)
returns an empty mapping or empty list; as total functions they raise no
error. -/
theorem fusion_empty_input :
    aggregate_arguments [] = [] ∧ calculate_argument_weights [] = [] ∧
      detect_echo_chambers [] = [] ∧ cross_validate_arguments [] = [] :=
  ⟨rfl, rfl, rfl, rfl⟩

/-- C4: under distinct argument ids, the weighting maps every argument id to
the mean confidence of its exact-text group times
(1 + 0.1 × number of distinct comment ids of the group), and two arguments
sharing a text receive the same weight. -/
theorem calculate_argument_weights_spec (arguments : List Argument)
    (h : (arguments.map (fun a => a.id)).Nodup) :
    (∀ a ∈ arguments,
      dictGet (calculate_argument_weights arguments) a.id =
        some ((((textGroup arguments a.text).map (fun b => b.confidence)).sum /
            ((textGroup arguments a.text).length : ℚ)) *
          (1 + (((textGroup arguments a.text).map
              (fun b => b.comment_id)).toFinset.card : ℚ) * (1/10)))) ∧
    (∀ a ∈ arguments, ∀ b ∈ arguments, a.text = b.text →
      dictGet (calculate_argument_weights arguments) a.id =
        dictGet (calculate_argument_weights arguments) b.id) := by
  constructor
  · intro a ha
    have hmain := dictGet_groupMap arguments groupWeight h a ha
    refine hmain.trans ?_
    rw [List.card_toFinset]
    rfl
  · intro a ha b hb htext
    have h1 := dictGet_groupMap arguments groupWeight h a ha
    have h2 := dictGet_groupMap arguments groupWeight h b hb
    rw [calculate_argument_weights, h1, h2, htext]

/-- C4 witness: two same-text arguments with confidences 1/2 and 1 from two
distinct comments get weight ((1/2 + 1)/2) × (1 + 2 × 0.1) = 9/10. -/
theorem calculate_argument_weights_witness :
    dictGet (calculate_argument_weights [wArg1, wArg2]) "a1" = some (9/10) := by
  have h := (calculate_argument_weights_spec [wArg1, wArg2] (by decide)).1
    wArg1 (List.mem_cons_self wArg1 [wArg2])
  exact h.trans (by with_unfolding_all decide)

/-- C5 counterexample: two arguments with the same text but the same
comment id are both validated (group size 2 > 1) although the text comes from
a single distinct comment, refuting the claimed equivalence with "appears
from more than one comment". -/
theorem cross_validate_single_source_counterexample :
    dictGet (cross_validate_arguments [cvArg1, cvArg2]) "a1" = some true ∧
      ([cvArg1, cvArg2].map (fun a => a.comment_id)).toFinset.card = 1 := by
  constructor
  · with_unfolding_all decide
  · with_unfolding_all decide

/-- C5 amended: under distinct argument ids, cross-validation maps an
argument id to true iff its exact-text group contains more than one Argument
(regardless of whether those arguments come from distinct comments). -/
theorem cross_validate_arguments_spec (arguments : List Argument)
    (h : (arguments.map (fun a => a.id)).Nodup) :
    ∀ a ∈ arguments,
      dictGet (cross_validate_arguments arguments) a.id =
        some (decide (1 < (textGroup arguments a.text).length)) := by
  intro a ha
  exact dictGet_groupMap arguments (fun g => decide (1 < g.length)) h a ha

/-- C5 witness: the second of the two duplicated arguments is validated. -/
theorem cross_validate_arguments_witness :
    dictGet (cross_validate_arguments [cvArg1, cvArg2]) "a2" = some true := by
  have h := cross_validate_arguments_spec [cvArg1, cvArg2] (by decide)
    cvArg2 (List.mem_cons_of_mem cvArg1 (List.mem_cons_self cvArg2 []))
  exact h.trans (by with_unfolding_all decide)

/-- C6: an argument id is returned by echo-chamber detection iff some listed
argument carries that id and the set of distinct comment ids of its exact-text
group has size > 10; for 11 identical-text arguments from 11 distinct comments
all 11 ids are returned, for 10 none are. -/
theorem detect_echo_chambers_spec :
    (∀ (arguments : List Argument) (i : String),
        i ∈ detect_echo_chambers arguments ↔
          ∃ a ∈ arguments, a.id = i ∧
            10 < ((textGroup arguments a.text).map
              (fun b => b.comment_id)).toFinset.card) ∧
    detect_echo_chambers echoArgs11 = echoArgs11.map (fun a => a.id) ∧
    detect_echo_chambers echoArgs10 = [] := by
  refine ⟨?_, by with_unfolding_all decide, by with_unfolding_all decide⟩
  intro arguments i
  rw [detect_echo_chambers, List.mem_flatMap]
  constructor
  · rintro ⟨t, ht, hv⟩
    by_cases hc :
      10 < ((textGroup arguments t).map (fun a => a.comment_id)).dedup.length
    · rw [if_pos hc, List.mem_map] at hv
      obtain ⟨a, ha, hid⟩ := hv
      have ha' := List.mem_filter.mp ha
      have htext : a.text = t := by simpa using ha'.2
      refine ⟨a, ha'.1, hid, ?_⟩
      rw [List.card_toFinset, htext]
      exact hc
    · rw [if_neg hc] at hv
      simp at hv
  · rintro ⟨a, ha, hid, hcard⟩
    refine ⟨a.text, ?_, ?_⟩
    · rw [mem_firstSeen]; exact List.mem_map.mpr ⟨a, ha, rfl⟩
    · rw [if_pos (by rw [← List.card_toFinset]; exact hcard), List.mem_map]
      exact ⟨a, List.mem_filter.mpr ⟨ha, by simp⟩, hid⟩

/-- C2 counterexample: on "bad bad good" the occurrence counts are
1 support vs 2 objection, so the claim (occurrence counting) predicts
OBJECTION, but the code counts distinct present keywords (1 vs 1) and
returns NEUTRAL. -/
theorem detect_argument_type_counterexample :
    keywordOccurrences support_keywords (pyLower "bad bad good") = 1 ∧
    keywordOccurrences objection_keywords (pyLower "bad bad good") = 2 ∧
    detect_argument_type_byOccurrences "bad bad good" = ArgumentType.OBJECTION ∧
    detect_argument_type "bad bad good" = ArgumentType.NEUTRAL := by
  refine ⟨by decide, by decide, by decide, by decide⟩

/-- C2 amended: the classifier compares the numbers of distinct support and
objection keywords occurring as case-insensitive substrings (each keyword
counted at most once, not per occurrence): more support keywords → SUPPORT,
more objection keywords → OBJECTION, tie (including 0-0) → NEUTRAL. -/
theorem detect_argument_type_spec (text : String) :
    (keywordsPresent objection_keywords (pyLower text) <
        keywordsPresent support_keywords (pyLower text) →
      detect_argument_type text = ArgumentType.SUPPORT) ∧
    (keywordsPresent support_keywords (pyLower text) <
        keywordsPresent objection_keywords (pyLower text) →
      detect_argument_type text = ArgumentType.OBJECTION) ∧
    (keywordsPresent support_keywords (pyLower text) =
        keywordsPresent objection_keywords (pyLower text) →
      detect_argument_type text = ArgumentType.NEUTRAL) := by
  have hrfl : detect_argument_type text =
      if keywordsPresent objection_keywords (pyLower text) <
          keywordsPresent support_keywords (pyLower text) then ArgumentType.SUPPORT
      else if keywordsPresent support_keywords (pyLower text) <
          keywordsPresent objection_keywords (pyLower text) then ArgumentType.OBJECTION
      else ArgumentType.NEUTRAL := rfl
  refine ⟨fun h1 => ?_, fun h2 => ?_, fun h3 => ?_⟩
  · rw [hrfl, if_pos h1]
  · rw [hrfl, if_neg (by omega), if_pos h2]
  · rw [hrfl, if_neg (by omega), if_neg (by omega)]

/-- C2 witness: "good agree bad" has 2 distinct support keywords vs 1
objection keyword, hence SUPPORT. -/
theorem detect_argument_type_spec_witness :
    detect_argument_type "good agree bad" = ArgumentType.SUPPORT :=
  (detect_argument_type_spec "good agree bad").1 (by decide)

/-- C7: the oracle returns exactly the citations of the static table whose
lowercased title-plus-summary shares strictly more than 2 whitespace tokens
with the lowercased argument text, in table order; an argument sharing 3
tokens with `cit_001` is matched, one sharing exactly 2 is not. -/
theorem find_citations_spec :
    (∀ argument : Argument, (find_citations argument).Sublist SAMPLE_CITATIONS) ∧
    (∀ (argument : Argument) (citation : Citation),
        citation ∈ find_citations argument ↔
          citation ∈ SAMPLE_CITATIONS ∧
            2 < sharedTokenCount argument.text (citationText citation)) ∧
    sharedTokenCount argShare3.text (citationText cit_001) = 3 ∧
    find_citations argShare3 = [cit_001] ∧
    sharedTokenCount argShare2.text (citationText cit_001) = 2 ∧
    find_citations argShare2 = [] := by
  refine ⟨?_, ?_, by decide, by with_unfolding_all decide, by decide,
    by with_unfolding_all decide⟩
  · intro argument
    exact List.filter_sublist _
  · intro argument citation
    rw [find_citations, List.mem_filter]
    simp

theorem clauseSuggestion_eq_ite (arguments : List Argument) (c : String) :
    clauseSuggestion arguments c =
      if supportCount (clauseGroup arguments c) <
          objectionCount (clauseGroup arguments c) then
        generate_objection_response c (clauseGroup arguments c)
      else if objectionCount (clauseGroup arguments c) <
          supportCount (clauseGroup arguments c) then
        generate_support_acknowledgment c (clauseGroup arguments c)
      else generate_balanced_review c (clauseGroup arguments c) := rfl

theorem clauseSuggestion_clause_eq (arguments : List Argument) (c : String) :
    (clauseSuggestion arguments c).clause = c := by
  rw [clauseSuggestion_eq_ite]
  split
  · rfl
  split
  · rfl
  · rfl

/-- C1: `suggest_amendments` yields exactly one suggestion per distinct clause
of the input (in first-seen clause order), and the suggestion type and
confidence are the claimed function of the clause's SUPPORT vs OBJECTION
counts (NEUTRAL arguments not counted): more objections → objection_response
at 0.9, more support → support_acknowledgment at 0.8, tie → balanced_review
at 0.7. -/
theorem suggest_amendments_spec (arguments : List Argument) :
    ((suggest_amendments arguments).map (fun s => s.clause) =
        firstSeen (arguments.map (fun a => a.clause))) ∧
    ((suggest_amendments arguments).map (fun s => s.clause)).Nodup ∧
    ∀ s ∈ suggest_amendments arguments,
      (supportCount (clauseGroup arguments s.clause) <
          objectionCount (clauseGroup arguments s.clause) →
        s.type = "objection_response" ∧ s.confidence = 9/10) ∧
      (objectionCount (clauseGroup arguments s.clause) <
          supportCount (clauseGroup arguments s.clause) →
        s.type = "support_acknowledgment" ∧ s.confidence = 8/10) ∧
      (supportCount (clauseGroup arguments s.clause) =
          objectionCount (clauseGroup arguments s.clause) →
        s.type = "balanced_review" ∧ s.confidence = 7/10) := by
  have hmap : (suggest_amendments arguments).map (fun s => s.clause) =
      firstSeen (arguments.map (fun a => a.clause)) := by
    rw [suggest_amendments, List.map_map]
    have hcomp : (fun s : AmendmentSuggestion => s.clause) ∘ clauseSuggestion arguments =
        fun c => c := funext (fun c => clauseSuggestion_clause_eq arguments c)
    rw [hcomp]
    exact List.map_id' _
  refine ⟨hmap, by rw [hmap]; exact nodup_firstSeen _, ?_⟩
  intro s hs
  rw [suggest_amendments, List.mem_map] at hs
  obtain ⟨c, hc, rfl⟩ := hs
  rw [clauseSuggestion_clause_eq]
  by_cases h1 : supportCount (clauseGroup arguments c) <
      objectionCount (clauseGroup arguments c)
  · rw [clauseSuggestion_eq_ite, if_pos h1]
    exact ⟨fun _ => ⟨rfl, rfl⟩, fun h2 => absurd h2 (by omega),
      fun h3 => absurd h3 (by omega)⟩
  · by_cases h2 : objectionCount (clauseGroup arguments c) <
        supportCount (clauseGroup arguments c)
    · rw [clauseSuggestion_eq_ite, if_neg h1, if_pos h2]
      exact ⟨fun hh => absurd hh (by omega), fun _ => ⟨rfl, rfl⟩,
        fun h3 => absurd h3 (by omega)⟩
    · rw [clauseSuggestion_eq_ite, if_neg h1, if_neg h2]
      exact ⟨fun hh => absurd hh h1, fun hh => absurd hh h2, fun _ => ⟨rfl, rfl⟩⟩

/-- C1 witness: one SUPPORT and one OBJECTION argument on clause
"Section 7(a)" tie, so the suggestion is a balanced_review at confidence
0.7. -/
theorem suggest_amendments_witness :
    (clauseSuggestion [tieArgS, tieArgO] "Section 7(a)").type = "balanced_review" ∧
      (clauseSuggestion [tieArgS, tieArgO] "Section 7(a)").confidence = 7/10 := by
  have h := (suggest_amendments_spec [tieArgS, tieArgO]).2.2
    (clauseSuggestion [tieArgS, tieArgO] "Section 7(a)")
    (by with_unfolding_all decide)
  exact h.2.2 (by with_unfolding_all decide)

/-- C8: an objection_response suggestion's citations list is the oracle
results over the clause's OBJECTION arguments, deduplicated by citation id
keeping first occurrences and truncated to 3; every other suggestion type has
no citations. -/
theorem suggestion_citations_spec (arguments : List Argument) :
    ∀ s ∈ suggest_amendments arguments,
      (s.type = "objection_response" →
        s.citations =
          (dedupCitations []
              (((clauseGroup arguments s.clause).filter
                  (fun a => decide (a.type = ArgumentType.OBJECTION))).flatMap
                find_citations)).take 3) ∧
      (s.type ≠ "objection_response" → s.citations = []) := by
  intro s hs
  rw [suggest_amendments, List.mem_map] at hs
  obtain ⟨c, hc, rfl⟩ := hs
  rw [clauseSuggestion_clause_eq]
  by_cases h1 : supportCount (clauseGroup arguments c) <
      objectionCount (clauseGroup arguments c)
  · rw [clauseSuggestion_eq_ite, if_pos h1]
    exact ⟨fun _ => rfl, fun hne => absurd rfl hne⟩
  · by_cases h2 : objectionCount (clauseGroup arguments c) <
        supportCount (clauseGroup arguments c)
    · rw [clauseSuggestion_eq_ite, if_neg h1, if_pos h2]
      refine ⟨fun heq => ?_, fun _ => rfl⟩
      exact absurd (show ("support_acknowledgment" : String) = "objection_response" from heq)
        (by decide)
    · rw [clauseSuggestion_eq_ite, if_neg h1, if_neg h2]
      refine ⟨fun heq => ?_, fun _ => rfl⟩
      exact absurd (show ("balanced_review" : String) = "objection_response" from heq)
        (by decide)

/-- C8 witness: a lone objecting argument matching `cit_001` produces an
objection_response whose citations list is exactly `[cit_001]`. -/
theorem suggestion_citations_witness :
    (clauseSuggestion [objArg] "c1").citations = [cit_001] := by
  have h := (suggestion_citations_spec [objArg]
      (clauseSuggestion [objArg] "c1") (by with_unfolding_all decide)).1
    (by with_unfolding_all decide)
  exact h.trans (by with_unfolding_all decide)

/-- C3: the heuristic confidence equals the clamp to [0, 1] of
0.5 + 0.2·[stance ≠ NEUTRAL] + min(0.1 × themes, 0.3) + min(2 × density, 0.2),
and in particular always lies in [0, 1]. -/
theorem calculate_confidence_spec (text : String) (t : ArgumentType)
    (themes : List String) :
    (calculate_confidence text t themes =
      max 0 (min 1 ((1/2 : ℚ) + (if t ≠ ArgumentType.NEUTRAL then 1/5 else 0) +
        min ((themes.length : ℚ) * (1/10)) (3/10) +
        min (2 * keywordDensity text) (1/5)))) ∧
    0 ≤ calculate_confidence text t themes ∧
    calculate_confidence text t themes ≤ 1 := by
  have hrfl : calculate_confidence text t themes =
      max 0 (min 1 (((if t ≠ ArgumentType.NEUTRAL then (1/2 : ℚ) + 1/5 else 1/2) +
        min ((themes.length : ℚ) * (1/10)) (3/10)) +
        min (keywordDensity text * 2) (1/5))) := rfl
  refine ⟨?_, ?_, ?_⟩
  · rw [hrfl]
    by_cases ht : t = ArgumentType.NEUTRAL
    · simp [ht, mul_comm]
    · simp [ht, mul_comm]
  · rw [hrfl]
    exact le_max_left 0 _
  · rw [hrfl]
    exact max_le zero_le_one (min_le_left 1 _)

theorem extract_themes_ne_nil (text : String) : extract_themes text ≠ [] := by
  have hrfl : extract_themes text =
      if ((theme_keywords.filter
            (fun p => p.2.any (fun k => pyIn k (pyLower text)))).map
          (fun p => p.1)).isEmpty then ["general"]
      else (theme_keywords.filter
            (fun p => p.2.any (fun k => pyIn k (pyLower text)))).map
          (fun p => p.1) := rfl
  rw [hrfl]
  split
  · simp
  · next h =>
    intro heq
    exact h (by rw [heq]; rfl)

theorem calculate_confidence_ge_of_themes (text : String) (t : ArgumentType)
    (themes : List String) (h : themes ≠ []) :
    3/5 ≤ calculate_confidence text t themes := by
  have hrfl : calculate_confidence text t themes =
      max 0 (min 1 (((if t ≠ ArgumentType.NEUTRAL then (1/2 : ℚ) + 1/5 else 1/2) +
        min ((themes.length : ℚ) * (1/10)) (3/10)) +
        min (keywordDensity text * 2) (1/5))) := rfl
  rw [hrfl]
  have hlen : (1 : ℚ) ≤ (themes.length : ℚ) := by
    have hl : 0 < themes.length := List.length_pos.mpr h
    exact_mod_cast hl
  have hmin1 : (1/10 : ℚ) ≤ min ((themes.length : ℚ) * (1/10)) (3/10) := by
    refine le_min ?_ (by norm_num)
    nlinarith
  have hkd : (0 : ℚ) ≤ keywordDensity text := by
    unfold keywordDensity
    positivity
  have hmin2 : (0 : ℚ) ≤ min (keywordDensity text * 2) (1/5) := by
    refine le_min (by nlinarith) (by norm_num)
  have hite : (1/2 : ℚ) ≤
      if t ≠ ArgumentType.NEUTRAL then (1/2 : ℚ) + 1/5 else 1/2 := by
    split
    · norm_num
    · norm_num
  have hinner : (3/5 : ℚ) ≤
      ((if t ≠ ArgumentType.NEUTRAL then (1/2 : ℚ) + 1/5 else 1/2) +
        min ((themes.length : ℚ) * (1/10)) (3/10)) +
        min (keywordDensity text * 2) (1/5) := by
    linarith
  exact le_trans (le_min (by norm_num) hinner) (le_max_right 0 _)

/-- C10: every argument the heuristic extractor produces has confidence at
least 0.6, because the themes list is never empty (the `general` fallback)
and so the pre-clamp sum is at least 0.5 + 0.1. -/
theorem extract_arguments_confidence_lb (comments : List Comment) :
    ∀ a ∈ extract_arguments comments, 3/5 ≤ a.confidence := by
  intro a ha
  rw [extract_arguments, List.mem_map] at ha
  obtain ⟨p, hp, rfl⟩ := ha
  exact calculate_confidence_ge_of_themes _ _ _ (extract_themes_ne_nil _)

/-- C10 witness: the argument extracted from the one-word comment "x" has
confidence exactly 3/5. -/
theorem extract_arguments_confidence_witness : (3/5 : ℚ) ≤ xArg.confidence :=
  extract_arguments_confidence_lb [cmt0] xArg (by with_unfolding_all decide)

end SovEdict
